import Mathlib

/-!
Shallow embedding of the mpv Wayland video-output backend
(src/video/out/wayland_common.c and src/video/out/vo_dmabuf_wayland.c),
restricted to the parts the verified claims are about:

* the toplevel-configure handler (`handle_toplevel_config`),
* the recursive GCD helper and the reduced-aspect computation of
  `set_geometry`,
* the frame-pacing state machine (`frame_callback`,
  `vo_wayland_wait_frame`, `vo_wayland_check_visible`, the
  `VOCTRL_CHECK_EVENTS` resize acknowledgement),
* the dmabuf format table (`vo_wayland_supported_format`) and the two
  dmabuf importer strategies of vo_dmabuf_wayland.c,
* the drag-and-drop offer handlers,
* the edge-resize detection (`check_for_resize`).

C `int`/`int64_t` values are modelled as `Int` (no arithmetic in the
embedded code paths comes near the 32/64-bit overflow boundary), C
`double` arithmetic is modelled as exact rational arithmetic over `ℚ`,
counters that are only ever incremented and reset are `Nat`, and
side-effecting protocol requests are modelled as explicitly returned
lists of emitted operations.
-/

/-- mp_rect from mpv: a rectangle given by two corners, all `int` fields. -/
structure Rect where
  x0 : Int
  y0 : Int
  x1 : Int
  y1 : Int
deriving DecidableEq

/-- mp_rect_w: width of a rectangle. -/
def mp_rect_w (r : Rect) : Int := r.x1 - r.x0

/-- mp_rect_h: height of a rectangle. -/
def mp_rect_h (r : Rect) : Int := r.y1 - r.y0

/-- The xdg_toplevel state flags that `handle_toplevel_config` inspects in
its `wl_array_for_each` switch; `other` stands for any enum value the
switch has no case for. -/
inductive ToplevelState where
  | fullscreen
  | resizing
  | activated
  | tiledTop
  | tiledLeft
  | tiledRight
  | tiledBottom
  | maximized
  | other
deriving DecidableEq

/-- The `wl_array_for_each` loop of `handle_toplevel_config`
(wayland_common.c:820-846): computes (is_fullscreen, is_maximized,
is_activated) from the state array.  The `window_minimized` write that
the ACTIVATED case also performs is applied separately in
`handle_toplevel_config`. -/
def scanToplevelStates (states : List ToplevelState) : Bool × Bool × Bool :=
  states.foldl
    (fun acc st =>
      match st with
      | .fullscreen => (true, acc.2.1, acc.2.2)
      | .resizing => acc
      | .activated => (acc.1, acc.2.1, true)
      | .tiledTop => (acc.1, true, acc.2.2)
      | .tiledLeft => (acc.1, true, acc.2.2)
      | .tiledRight => (acc.1, true, acc.2.2)
      | .tiledBottom => (acc.1, true, acc.2.2)
      | .maximized => (acc.1, true, acc.2.2)
      | .other => acc)
    (false, false, false)

/-- The pending_vo_events bitmask, restricted to the bits
`handle_toplevel_config` can set (VO_EVENT_RESIZE, VO_EVENT_EXPOSE,
VO_EVENT_FOCUS). -/
structure PendingEvents where
  resize : Bool
  expose : Bool
  focus : Bool
deriving DecidableEq

/-- The fields of `struct vo_wayland_state` (plus the embedded
`mp_vo_opts` option fields) that `handle_toplevel_config` reads or
writes.  `m_config_cache_write_opt` only publishes an option value to
other threads and is therefore not modelled; `request_decoration_mode`
re-sends the already stored `requested_decoration` value, leaving this
state unchanged. -/
structure WlState where
  geometry : Rect
  window_size : Rect
  toplevel_width : Int
  toplevel_height : Int
  state_change : Bool
  fullscreen : Bool
  window_maximized : Bool
  window_minimized : Bool
  keepaspect : Bool
  keepaspect_window : Bool
  activated : Bool
  focused : Bool
  has_keyboard_input : Bool
  hidden : Bool
  reduced_width : Int
  reduced_height : Int
  pending : PendingEvents
  toplevel_configured : Bool
deriving DecidableEq

/-- The `resize:` label at the end of `handle_toplevel_config`
(wayland_common.c:918-924): flag a pending resize and mark the toplevel
configured. -/
def toplevelResizeFinish (t : WlState) : WlState :=
  { t with pending := { t.pending with resize := true }, toplevel_configured := true }

/-- The option/focus reconciliation section of handle_toplevel_config
(wayland_common.c:829-876): sync `window_minimized` on an ACTIVATED
state, sync the `fullscreen` and `window_maximized` options (setting
`state_change` on a mismatch), and update activation/focus, clearing
`hidden` and flagging an expose on activation.  (The
`request_decoration_mode` call on lines 860-861 re-sends the stored
`requested_decoration` value and changes none of this state.) -/
def toplevelStateSync (s : WlState)
    (is_fullscreen is_maximized is_activated : Bool) : WlState :=
  let s := if is_activated then { s with window_minimized := false } else s
  let s := if s.fullscreen != is_fullscreen then
      { s with state_change := true, fullscreen := is_fullscreen }
    else s
  let s := if s.window_maximized != is_maximized then
      { s with state_change := true, window_maximized := is_maximized }
    else s
  if s.activated != is_activated then
    let s := { s with activated := is_activated }
    let s :=
      if (!s.focused && s.activated && s.has_keyboard_input) ||
          (s.focused && !s.activated) then
        { s with focused := !s.focused, pending := { s.pending with focus := true } }
      else s
    if s.activated then
      { s with hidden := false, pending := { s.pending with expose := true } }
    else s
  else s

/-- The size-application tail of handle_toplevel_config
(wayland_common.c:878-925): apply a pending state change, reuse the
last windowed size on a zero-sized configure, ignore an unchanged
toplevel size, and otherwise apply the suggested size (recomputed
through the reduced aspect ratio when keepaspect is active and the
window is neither fullscreen nor maximized).  The `double` arithmetic
of the keepaspect branch (`scale_factor`, `ceil`) is modelled over
`ℚ`. -/
def toplevelApplySize (s : WlState) (old_geometry : Rect)
    (old_toplevel_width old_toplevel_height width height : Int)
    (is_fullscreen is_maximized : Bool) : WlState :=
  if s.state_change && (!is_fullscreen && !is_maximized) then
    toplevelResizeFinish { s with geometry := s.window_size, state_change := false }
  else if width = 0 ∨ height = 0 then
    -- "Reuse old size if either of these are 0."
    toplevelResizeFinish
      (if !is_fullscreen && !is_maximized then { s with geometry := s.window_size } else s)
  else if old_toplevel_width = s.toplevel_width ∧
      old_toplevel_height = s.toplevel_height then
    s
  else
    let wh : Int × Int :=
      if (!is_fullscreen && !is_maximized) && s.keepaspect then
        let scale_factor : ℚ := (width : ℚ) / (s.reduced_width : ℚ)
        let w := ⌈(s.reduced_width : ℚ) * scale_factor⌉
        let h := if s.keepaspect_window then
            ⌈(s.reduced_height : ℚ) * scale_factor⌉
          else height
        (w, h)
      else (width, height)
    let s := if !is_fullscreen && !is_maximized then
        { s with window_size := ⟨0, 0, wh.1, wh.2⟩ }
      else s
    let s := { s with geometry := ⟨0, 0, wh.1, wh.2⟩ }
    if s.geometry = old_geometry then s else toplevelResizeFinish s

/-- handle_toplevel_config (wayland_common.c:800-925).  `width`/`height`
are the sizes suggested by the compositor, `states` the xdg_toplevel
state array. -/
def handle_toplevel_config (s0 : WlState) (width height : Int)
    (states : List ToplevelState) : WlState :=
  let old_geometry := s0.geometry
  let old_toplevel_width := s0.toplevel_width
  let old_toplevel_height := s0.toplevel_height
  let s := { s0 with toplevel_width := width, toplevel_height := height }
  -- "Don't do anything here if we haven't finished setting geometry."
  if mp_rect_w s.geometry = 0 ∨ mp_rect_h s.geometry = 0 then
    s
  else
    let flags := scanToplevelStates states
    let s := toplevelStateSync s flags.1 flags.2.1 flags.2.2
    toplevelApplySize s old_geometry old_toplevel_width old_toplevel_height
      width height flags.1 flags.2.1

/-- greatest_common_divisor (wayland_common.c:1425-1442), the recursive
Euclidean helper.  In the source, `floor(larger/smaller)` applies
`floor` to a C integer division, so the remainder is `larger % smaller`;
the function is only ever called with the positive sizes from
`set_geometry`.  The returned value models the `wl->gcd` store.  A
zero divisor would be a division by zero in C; that branch is made
explicit here (and is unreachable for positive inputs). -/
def greatest_common_divisor (a b : Nat) : Nat :=
  let larger := if a > b then a else b
  let smaller := if a > b then b else a
  if h : smaller = 0 then
    0
  else
    let remainder := larger - smaller * (larger / smaller)
    if remainder = 0 then
      smaller
    else
      greatest_common_divisor smaller remainder
termination_by min a b
decreasing_by
  have h' : ¬(if _h : a > b then b else a) = 0 := h
  simp_wf
  by_cases hab : b < a
  · rw [dif_pos (show a > b from hab)] at h'
    have hmod := Nat.div_add_mod a b
    have hlt : a % b < b := Nat.mod_lt _ (Nat.pos_of_ne_zero h')
    simp only [if_pos hab]
    omega
  · rw [dif_neg (show ¬a > b from hab)] at h'
    have hmod := Nat.div_add_mod b a
    have hlt : b % a < a := Nat.mod_lt _ (Nat.pos_of_ne_zero h')
    simp only [if_neg hab]
    omega

/-- The reduced-aspect computation of set_geometry
(wayland_common.c:1542-1544): `wl->reduced_width = vo->dwidth / wl->gcd`
and likewise for the height. -/
def set_geometry_reduced (dwidth dheight : Nat) : Nat × Nat :=
  let g := greatest_common_divisor dwidth dheight
  (dwidth / g, dheight / g)

/-- The frame-pacing fields of `struct vo_wayland_state`
(`frame_wait`, `hidden`, `timeout_count`) together with the
`vo-wayland-disable-vsync` option and an instrumentation counter
`callbacks_outstanding`: the number of `wl_callback` frame callbacks
currently requested from the compositor and not yet fired
(incremented by each `wl_surface_frame` call, decremented when a fired
callback is destroyed).  `timeout_count` is a C `int` that is only ever
incremented by one or reset to zero, hence a `Nat`. -/
structure PacingState where
  frame_wait : Bool
  hidden : Bool
  timeout_count : Nat
  callbacks_outstanding : Nat
  disable_vsync : Bool
deriving DecidableEq

/-- frame_callback (wayland_common.c:1056-1073): the fired callback is
destroyed, a new frame callback is immediately requested on the
surface, and `frame_wait` and `hidden` are cleared.  (The presentation
feedback request on lines 1066-1069 touches no pacing state.) -/
def frame_callback (s : PacingState) : PacingState :=
  { s with callbacks_outstanding := s.callbacks_outstanding - 1 + 1,
           frame_wait := false, hidden := false }

/-- The `while (wl->frame_wait && finish_time > mp_time_us())` dispatch
loop of vo_wayland_wait_frame (wayland_common.c:2231-2237).  Each list
element is one `vo_wayland_dispatch_events` round before the deadline
(`true` when the compositor delivered the frame callback during that
round, in which case `frame_callback` runs); the list ends when the
deadline elapses.  The loop exits early once `frame_wait` is false. -/
def waitLoopDispatch : List Bool → PacingState → PacingState
  | [], s => s
  | fired :: rest, s =>
    if s.frame_wait then
      waitLoopDispatch rest (if fired then frame_callback s else s)
    else s

/-- The miss-accounting tail of vo_wayland_wait_frame
(wayland_common.c:2244-2255): if the wait timed out with no callback,
tolerate up to two consecutive misses and mark the surface hidden
otherwise; if the callback fired, reset the consecutive-miss counter. -/
def vo_wayland_wait_frame_timeout (s : PacingState) : PacingState :=
  if s.frame_wait then
    if s.timeout_count > 1 then
      { s with hidden := true }
    else
      { s with timeout_count := s.timeout_count + 1 }
  else
    { s with timeout_count := 0 }

/-- vo_wayland_wait_frame (wayland_common.c:2204-2256), state part: run
the dispatch loop until the callback fires or the deadline elapses,
then account for a missed deadline.  The deadline computation itself is
`computeVblankPadded` below. -/
def vo_wayland_wait_frame (dispatches : List Bool) (s : PacingState) : PacingState :=
  vo_wayland_wait_frame_timeout (waitLoopDispatch dispatches s)

/-- The inputs of the vblank-interval selection at the top of
vo_wayland_wait_frame (wayland_common.c:2206-2225): `use_present`,
`present->vsync_duration`, `wl->refresh_interval` (both `int64_t`
microsecond counts) and `current_output->refresh_rate` (a `double`,
modelled as an exact rational). -/
structure FrameWaitInput where
  use_present : Bool
  vsync_duration : Int
  refresh_interval : Int
  refresh_rate : ℚ

/-- The vblank-interval selection of vo_wayland_wait_frame
(wayland_common.c:2206-2225), before padding: vsync duration from
presentation time, then the reported refresh interval, then the
output's refresh rate, then a hardcoded 60 Hz guess.  The C assignment
`vblank_time = 1e6 / refresh_rate` truncates a positive double to
`int64_t`, i.e. takes the floor. -/
def computeVblankBase (i : FrameWaitInput) : Int :=
  let v : Int := 0
  let v := if i.use_present then i.vsync_duration else v
  let v := if v ≤ 0 ∧ i.refresh_interval > 0 then i.refresh_interval else v
  let v := if v ≤ 0 ∧ i.refresh_rate > 0 then ⌊(1000000 : ℚ) / i.refresh_rate⌋ else v
  if v ≤ 0 then 1000000 / 60 else v

/-- The 5% padding `vblank_time += 0.05 * vblank_time`
(wayland_common.c:2228), truncating the (positive) double sum back to
`int64_t`. -/
def computeVblankPadded (i : FrameWaitInput) : Int :=
  let v := computeVblankBase i
  ⌊(v : ℚ) + 5 / 100 * (v : ℚ)⌋

/-- vo_wayland_check_visible (wayland_common.c:1741-1747): returns
whether the caller should render and arms the frame wait. -/
def vo_wayland_check_visible (s : PacingState) : Bool × PacingState :=
  (!s.hidden || s.disable_vsync, { s with frame_wait := true })

/-- The steps of the event/render loop that touch the frame-pacing
state.  An audit of wayland_common.c shows `wl_surface_frame` is called
in exactly two places: once in `vo_wayland_init` (line 1991) and once
in `frame_callback` (line 1063); no other code requests a frame
callback.
* `frameFired`: the outstanding frame callback fires outside the wait
  loop (dispatched from `vo_wayland_wait_events` / `vo_wayland_control`).
* `waitFrame dispatches`: one `vo_wayland_wait_frame` call.
* `checkVisible`: one `vo_wayland_check_visible` call from the draw path.
* `resizeAck`: `vo_wayland_control`'s `VOCTRL_CHECK_EVENTS` branch for a
  pending resize (wayland_common.c:1759-1763).
* `exposeActivate`: the activation branch of `handle_toplevel_config`
  clearing `hidden` (wayland_common.c:872-875). -/
inductive LoopEvent where
  | frameFired
  | waitFrame (dispatches : List Bool)
  | checkVisible
  | resizeAck
  | exposeActivate

/-- Effect of one `LoopEvent` on the pacing state. -/
def loopStep (s : PacingState) : LoopEvent → PacingState
  | .frameFired => frame_callback s
  | .waitFrame dispatches => vo_wayland_wait_frame dispatches s
  | .checkVisible => (vo_wayland_check_visible s).2
  | .resizeAck => { s with frame_wait := false, timeout_count := 0, hidden := false }
  | .exposeActivate => { s with hidden := false }

/-- The pacing state right after vo_wayland_init: the state struct is
talloc_zero'd, and lines 1991-1992 request the initial frame callback. -/
def vo_wayland_init_pacing (disable_vsync : Bool) : PacingState :=
  { frame_wait := false, hidden := false, timeout_count := 0,
    callbacks_outstanding := 0 + 1, disable_vsync := disable_vsync }

/-- Running the loop from the post-init state over a list of events. -/
def runLoop (disable_vsync : Bool) (events : List LoopEvent) : PacingState :=
  events.foldl loopStep (vo_wayland_init_pacing disable_vsync)

/-- The negotiated dmabuf format tables of `struct vo_wayland_state`:
`format_map` is the mmap'd (format, modifier) table from
zwp_linux_dmabuf_feedback_v1 (each entry is 16 bytes: format, padding,
64-bit modifier), `drm_formats` the legacy v2 format list built by
`dmabuf_format`.  Formats and modifiers are unsigned, hence `Nat`. -/
structure FormatTable where
  format_map : List (Nat × Nat)
  drm_formats : List Nat
deriving DecidableEq

/-- vo_wayland_supported_format (wayland_common.c:2056-2078): scan the
feedback format table for the exact (format, modifier) pair, then the
legacy v2 format list for the bare format. -/
def vo_wayland_supported_format (t : FormatTable) (drm_format modifier : Nat) : Bool :=
  t.format_map.any (fun e => e.1 == drm_format && e.2 == modifier) ||
    t.drm_formats.any (fun f => f == drm_format)

/-- One `zwp_linux_buffer_params_v1_add` protocol request: per-plane fd,
plane index, offset, stride and the 64-bit modifier split into its high
and low 32-bit halves. -/
structure PlaneAdd where
  fd : Nat
  plane_idx : Nat
  offset : Nat
  pitch : Nat
  modifier_hi : Nat
  modifier_lo : Nat
deriving DecidableEq

/-- Outcome of `vaExportSurfaceHandle` as distinguished by
vaapi_dmabuf_importer: success, `VA_STATUS_ERROR_INVALID_SURFACE`
(composed-layer export unsupported), or any other failure
(`CHECK_VA_STATUS` false). -/
inductive VaStatus where
  | success
  | invalidSurface
  | otherError
deriving DecidableEq

/-- One object of a `VADRMPRIMESurfaceDescriptor` /
`AVDRMFrameDescriptor`: a dmabuf fd and its format modifier. -/
structure DmabufObject where
  fd : Nat
  format_modifier : Nat
deriving DecidableEq

/-- One plane of a descriptor layer: object index, offset and pitch. -/
structure DmabufPlane where
  object_index : Nat
  offset : Nat
  pitch : Nat
deriving DecidableEq

/-- The part of a `VADRMPRIMESurfaceDescriptor` read by
vaapi_dmabuf_importer with `VA_EXPORT_SURFACE_COMPOSED_LAYERS` (a
single composed layer 0). -/
structure VaapiDesc where
  layer0_drm_format : Nat
  layer0_planes : List DmabufPlane
  objects : List DmabufObject
deriving DecidableEq

/-- vaapi_dmabuf_importer (vo_dmabuf_wayland.c:72-107): validate that
the compositor supports (layer 0 format, object 0 modifier) before any
`zwp_linux_buffer_params_v1_add` request is issued; on success emit one
add request per plane of layer 0.  The returned list is the emitted
plane-add requests; closing the exported fds has no modelled effect. -/
def vaapi_dmabuf_importer (t : FormatTable) (status : VaStatus)
    (desc : VaapiDesc) : Bool × List PlaneAdd :=
  if status = .invalidSurface then
    (false, [])
  else if !vo_wayland_supported_format t desc.layer0_drm_format
      ((desc.objects.getD 0 ⟨0, 0⟩).format_modifier) then
    (false, [])
  else if status = .success then
    (true,
      desc.layer0_planes.enum.map (fun pe =>
        let obj := desc.objects.getD pe.2.object_index ⟨0, 0⟩
        { fd := obj.fd, plane_idx := pe.1, offset := pe.2.offset,
          pitch := pe.2.pitch,
          modifier_hi := obj.format_modifier / 2 ^ 32,
          modifier_lo := obj.format_modifier % 2 ^ 32 }))
  else
    (false, [])

/-- One layer of an `AVDRMFrameDescriptor`. -/
structure DrmLayer where
  format : Nat
  planes : List DmabufPlane
deriving DecidableEq

/-- The part of an `AVDRMFrameDescriptor` read by
drmprime_dmabuf_importer. -/
structure DrmDesc where
  layers : List DrmLayer
  objects : List DmabufObject
deriving DecidableEq

/-- drmprime_dmabuf_importer (vo_dmabuf_wayland.c:120-142): emit one
`zwp_linux_buffer_params_v1_add` request per plane of every layer and
return true.  Note the source performs no format or modifier
validation whatsoever on this path. -/
def drmprime_dmabuf_importer (desc : DrmDesc) : Bool × List PlaneAdd :=
  (true,
    (desc.layers.map (fun layer =>
      layer.planes.enum.map (fun pe =>
        let obj := desc.objects.getD pe.2.object_index ⟨0, 0⟩
        { fd := obj.fd, plane_idx := pe.1, offset := pe.2.offset,
          pitch := pe.2.pitch,
          modifier_hi := obj.format_modifier / 2 ^ 32,
          modifier_lo := obj.format_modifier % 2 ^ 32 }))).flatten)

/-- The drag-and-drop fields of `struct vo_wayland_state` that the data
offer/device listeners use.  `dnd_offer` holds the protocol id of the
active offer; `destroyed_offers` records every `wl_data_offer_destroy`
call so destruction is observable. -/
structure DndState where
  dnd_offer : Option Nat
  dnd_mime_type : Option String
  dnd_mime_score : Int
  destroyed_offers : List Nat
deriving DecidableEq

/-- data_offer_handle_offer (wayland_common.c:491-502): one candidate
mime type announced on the active offer.  `score` is the value the
external scorer `mp_event_get_mime_type_score` returns for
`mime_type`; the candidate is recorded only if it strictly beats the
current score. -/
def data_offer_handle_offer (s : DndState) (mime_type : String) (score : Int) : DndState :=
  if score > s.dnd_mime_score then
    { s with dnd_mime_score := score, dnd_mime_type := some mime_type }
  else s

/-- data_device_handle_data_offer (wayland_common.c:523-532): a new
offer arrives; the previous offer object (if any) is destroyed and the
new one becomes active.  The recorded mime type and score are left
untouched. -/
def data_device_handle_data_offer (s : DndState) (id : Nat) : DndState :=
  let s :=
    match s.dnd_offer with
    | some old => { s with destroyed_offers := old :: s.destroyed_offers }
    | none => s
  { s with dnd_offer := some id }

/-- data_device_handle_leave (wayland_common.c:554-570): unless a
payload transfer is still draining (`dnd_fd` open), destroy the active
offer and reset the recorded mime type and score. -/
def data_device_handle_leave (s : DndState) (dnd_fd_open : Bool) : DndState :=
  match s.dnd_offer with
  | some old =>
    if dnd_fd_open then s
    else
      { s with dnd_offer := none, destroyed_offers := old :: s.destroyed_offers,
               dnd_mime_type := none, dnd_mime_score := 0 }
  | none => { s with dnd_mime_type := none, dnd_mime_score := 0 }

/-- The eight xdg_toplevel resize edges. -/
inductive ResizeEdge where
  | top
  | bottom
  | left
  | topLeft
  | bottomLeft
  | right
  | topRight
  | bottomRight
deriving DecidableEq

/-- check_for_resize (wayland_common.c:1312-1346).  `pos0`/`pos1` are
the pointer/touch coordinates after `wl_fixed_to_double` truncated to
`int`, `edge_pixels` the configured margin, `geometry` the window
rectangle.  Returns `some edge` when the source returns 1 with `*edge`
set, and `none` when it returns 0 (fullscreen/maximized early-out, or
no margin crossed). -/
def check_for_resize (fullscreen window_maximized : Bool) (pos0 pos1 : Int)
    (geometry : Rect) (edge_pixels : Int) : Option ResizeEdge :=
  if fullscreen || window_maximized then
    none
  else
    let left_edge := pos0 < edge_pixels
    let top_edge := pos1 < edge_pixels
    let right_edge := pos0 > mp_rect_w geometry - edge_pixels
    let bottom_edge := pos1 > mp_rect_h geometry - edge_pixels
    if left_edge then
      some (if top_edge then .topLeft else if bottom_edge then .bottomLeft else .left)
    else if right_edge then
      some (if top_edge then .topRight else if bottom_edge then .bottomRight else .right)
    else if top_edge then
      some .top
    else if bottom_edge then
      some .bottom
    else
      none

/-- The protocol/pool side effects of `draw_frame` that the embedding
makes observable. -/
inductive SurfaceOp where
  | poolClean
  | attachBuffer (key : Nat)
  | damageBuffer
deriving DecidableEq

/-- The fields of `struct priv` of vo_dmabuf_wayland.c that
`draw_frame` uses, plus the backend pacing state. -/
structure DrawState where
  pacing : PacingState
  want_reset : Bool
  reset_count : Nat
deriving DecidableEq

/-- draw_frame (vo_dmabuf_wayland.c:168-205).  `poolEntry` abstracts
`wlbuf_pool_get_entry` (defined in wlbuf_pool.c, outside this
repository slice): `some key` when the pool produced a buffer for the
frame, `none` on import failure.  Returns the updated state and the
emitted surface/pool operations, in order. -/
def draw_frame (poolEntry : Option Nat) (d : DrawState) : DrawState × List SurfaceOp :=
  let rp := vo_wayland_check_visible d.pacing
  let d := { d with pacing := rp.2 }
  if !rp.1 then
    (d, [])
  else
    let d := { d with reset_count := d.reset_count + 1 }
    let pr : DrawState × List SurfaceOp :=
      if d.want_reset ∧ d.reset_count ≤ 2 then
        ({ d with want_reset := if d.reset_count = 2 then false else d.want_reset },
          [.poolClean])
      else (d, [])
    match poolEntry with
    | none => pr
    | some k => (pr.1, pr.2 ++ [.attachBuffer k, .damageBuffer])

theorem gcd_eq_aux : ∀ (n : Nat) (a b : Nat), min a b ≤ n → 0 < a → 0 < b →
    greatest_common_divisor a b = Nat.gcd a b := by
  intro n
  induction n with
  | zero => intro a b hmin ha hb; omega
  | succ n ih =>
    intro a b hmin ha hb
    rw [greatest_common_divisor]
    by_cases hab : a > b
    · have hmod : a - b * (a / b) = a % b := by
        have := Nat.div_add_mod a b
        omega
      simp only [if_pos hab, dif_neg (Nat.pos_iff_ne_zero.mp hb)]
      rw [hmod]
      by_cases hr : a % b = 0
      · simp only [if_pos hr]
        rw [Nat.gcd_comm, Nat.gcd_rec, hr, Nat.gcd_zero_left]
      · simp only [if_neg hr]
        have hlt : a % b < b := Nat.mod_lt _ hb
        rw [ih b (a % b) (by omega) hb (Nat.pos_of_ne_zero hr)]
        rw [Nat.gcd_comm a b, Nat.gcd_rec b a, Nat.gcd_comm]
    · have hmod : b - a * (b / a) = b % a := by
        have := Nat.div_add_mod b a
        omega
      simp only [if_neg hab, dif_neg (Nat.pos_iff_ne_zero.mp ha)]
      rw [hmod]
      by_cases hr : b % a = 0
      · simp only [if_pos hr]
        rw [Nat.gcd_rec, hr, Nat.gcd_zero_left]
      · simp only [if_neg hr]
        have hlt : b % a < a := Nat.mod_lt _ ha
        rw [ih a (b % a) (by omega) ha (Nat.pos_of_ne_zero hr)]
        rw [Nat.gcd_rec a b, Nat.gcd_comm]

theorem toplevelStateSync_preserves (s : WlState) (f m a : Bool) :
    (toplevelStateSync s f m a).geometry = s.geometry ∧
    (toplevelStateSync s f m a).window_size = s.window_size ∧
    (toplevelStateSync s f m a).toplevel_width = s.toplevel_width ∧
    (toplevelStateSync s f m a).toplevel_height = s.toplevel_height ∧
    (toplevelStateSync s f m a).keepaspect = s.keepaspect ∧
    (toplevelStateSync s f m a).keepaspect_window = s.keepaspect_window ∧
    (toplevelStateSync s f m a).reduced_width = s.reduced_width ∧
    (toplevelStateSync s f m a).reduced_height = s.reduced_height := by
  simp only [toplevelStateSync]
  split_ifs <;> simp_all

theorem toplevelStateSync_state_change (s : WlState) (f m a : Bool)
    (hf : s.fullscreen = f) (hm : s.window_maximized = m) :
    (toplevelStateSync s f m a).state_change = s.state_change := by
  simp only [toplevelStateSync]
  split_ifs <;> simp_all

/-- C1: a toplevel-configure event with zero suggested width or height,
arriving while a non-zero geometry is established and the state array
reports neither fullscreen nor maximized, leaves the window geometry
equal to the last windowed size (wl->window_size), leaves window_size
itself unchanged, and therefore never installs a zero-sized
geometry. -/
theorem C1_zero_configure_reuses_window_size (s : WlState) (W H : Int)
    (states : List ToplevelState)
    (hw : ¬mp_rect_w s.geometry = 0) (hh : ¬mp_rect_h s.geometry = 0)
    (hz : W = 0 ∨ H = 0)
    (hfs : (scanToplevelStates states).1 = false)
    (hmx : (scanToplevelStates states).2.1 = false) :
    (handle_toplevel_config s W H states).geometry = s.window_size ∧
    (handle_toplevel_config s W H states).window_size = s.window_size ∧
    (¬mp_rect_w s.window_size = 0 →
      ¬mp_rect_w (handle_toplevel_config s W H states).geometry = 0) ∧
    (¬mp_rect_h s.window_size = 0 →
      ¬mp_rect_h (handle_toplevel_config s W H states).geometry = 0) := by
  have hcfg : handle_toplevel_config s W H states =
      toplevelApplySize
        (toplevelStateSync { s with toplevel_width := W, toplevel_height := H }
          (scanToplevelStates states).1 (scanToplevelStates states).2.1
          (scanToplevelStates states).2.2)
        s.geometry s.toplevel_width s.toplevel_height W H
        (scanToplevelStates states).1 (scanToplevelStates states).2.1 := by
    simp only [handle_toplevel_config]
    rw [if_neg]
    exact fun hc => hc.elim hw hh
  obtain ⟨hg, hws, _, _, _, _, _, _⟩ :=
    toplevelStateSync_preserves { s with toplevel_width := W, toplevel_height := H }
      (scanToplevelStates states).1 (scanToplevelStates states).2.1
      (scanToplevelStates states).2.2
  have hmain : (handle_toplevel_config s W H states).geometry = s.window_size ∧
      (handle_toplevel_config s W H states).window_size = s.window_size := by
    rw [hcfg]
    rw [hfs, hmx] at hg hws ⊢
    by_cases hsc :
        (toplevelStateSync { s with toplevel_width := W, toplevel_height := H }
          false false (scanToplevelStates states).2.2).state_change
    · simp [toplevelApplySize, hsc, toplevelResizeFinish, hws]
    · simp [toplevelApplySize, hsc, hz, toplevelResizeFinish, hws]
  exact ⟨hmain.1, hmain.2,
    fun hnz => by rw [hmain.1]; exact hnz,
    fun hnz => by rw [hmain.1]; exact hnz⟩

theorem C1_zero_configure_reuses_window_size_witness :
    (let s : WlState :=
      { geometry := ⟨0, 0, 800, 600⟩, window_size := ⟨0, 0, 640, 480⟩,
        toplevel_width := 800, toplevel_height := 600, state_change := false,
        fullscreen := false, window_maximized := false, window_minimized := false,
        keepaspect := true, keepaspect_window := true, activated := true,
        focused := true, has_keyboard_input := true, hidden := false,
        reduced_width := 4, reduced_height := 3,
        pending := ⟨false, false, false⟩, toplevel_configured := false }
     ¬mp_rect_w s.geometry = 0 ∧ ¬mp_rect_h s.geometry = 0 ∧
     ((0 : Int) = 0 ∨ (0 : Int) = 0) ∧
     (scanToplevelStates [ToplevelState.activated]).1 = false ∧
     (scanToplevelStates [ToplevelState.activated]).2.1 = false ∧
     ((handle_toplevel_config s 0 0 [ToplevelState.activated]).geometry = s.window_size ∧
       (handle_toplevel_config s 0 0 [ToplevelState.activated]).window_size = s.window_size ∧
       (¬mp_rect_w s.window_size = 0 →
         ¬mp_rect_w (handle_toplevel_config s 0 0 [ToplevelState.activated]).geometry = 0) ∧
       (¬mp_rect_h s.window_size = 0 →
         ¬mp_rect_h (handle_toplevel_config s 0 0 [ToplevelState.activated]).geometry = 0))) :=
  ⟨by decide, by decide, Or.inl rfl, by decide, by decide,
    C1_zero_configure_reuses_window_size _ 0 0 [ToplevelState.activated]
      (by decide) (by decide) (Or.inl rfl) (by decide) (by decide)⟩

/-- C7: an aspect-locked resize in windowed mode (keepaspect and
keepaspect-window set, state array reporting neither fullscreen nor
maximized, a genuinely new non-zero suggested size) produces a geometry
whose height is ceil(reduced_height * width / reduced_width), where the
reduced width and height come from set_geometry dividing the
established size by the gcd computed by the recursive helper. -/
theorem C7_aspect_locked_resize (s : WlState) (W H : Int) (states : List ToplevelState)
    (W0 H0 : Nat)
    (hw : ¬mp_rect_w s.geometry = 0) (hh : ¬mp_rect_h s.geometry = 0)
    (hW : ¬W = 0) (hH : ¬H = 0)
    (hfs : (scanToplevelStates states).1 = false)
    (hmx : (scanToplevelStates states).2.1 = false)
    (hsf : s.fullscreen = false) (hsm : s.window_maximized = false)
    (hsc : s.state_change = false)
    (hka : s.keepaspect = true) (hkw : s.keepaspect_window = true)
    (hch : ¬(s.toplevel_width = W ∧ s.toplevel_height = H))
    (hW0 : 0 < W0) (hH0 : 0 < H0)
    (hrw : s.reduced_width = ((set_geometry_reduced W0 H0).1 : Int))
    (hrh : s.reduced_height = ((set_geometry_reduced W0 H0).2 : Int)) :
    s.reduced_width = ((W0 / Nat.gcd W0 H0 : Nat) : Int) ∧
    s.reduced_height = ((H0 / Nat.gcd W0 H0 : Nat) : Int) ∧
    mp_rect_h (handle_toplevel_config s W H states).geometry =
      ⌈((s.reduced_height * W : Int) : ℚ) / ((s.reduced_width : Int) : ℚ)⌉ := by
  have hgg : greatest_common_divisor W0 H0 = Nat.gcd W0 H0 :=
    gcd_eq_aux (min W0 H0) W0 H0 le_rfl hW0 hH0
  refine ⟨by rw [hrw]; simp [set_geometry_reduced, hgg],
    by rw [hrh]; simp [set_geometry_reduced, hgg], ?_⟩
  have hcfg : handle_toplevel_config s W H states =
      toplevelApplySize
        (toplevelStateSync { s with toplevel_width := W, toplevel_height := H }
          false false (scanToplevelStates states).2.2)
        s.geometry s.toplevel_width s.toplevel_height W H false false := by
    simp only [handle_toplevel_config]
    rw [if_neg]
    · rw [hfs, hmx]
    · exact fun hc => hc.elim hw hh
  obtain ⟨hg, hws, htw, hth, hka', hkw', hrw', hrh'⟩ :=
    toplevelStateSync_preserves { s with toplevel_width := W, toplevel_height := H }
      false false (scanToplevelStates states).2.2
  have hsc0 :=
    toplevelStateSync_state_change { s with toplevel_width := W, toplevel_height := H }
      false false (scanToplevelStates states).2.2 hsf hsm
  set SY := toplevelStateSync { s with toplevel_width := W, toplevel_height := H }
      false false (scanToplevelStates states).2.2 with hSYdef
  have htw2 : SY.toplevel_width = W := htw
  have hth2 : SY.toplevel_height = H := hth
  have hka2 : SY.keepaspect = true := by rw [(hka' : SY.keepaspect = s.keepaspect), hka]
  have hkw2 : SY.keepaspect_window = true := by
    rw [(hkw' : SY.keepaspect_window = s.keepaspect_window), hkw]
  have hrw2 : SY.reduced_width = s.reduced_width := hrw'
  have hrh2 : SY.reduced_height = s.reduced_height := hrh'
  have hsc2 : SY.state_change = false := by
    rw [(hsc0 : SY.state_change = s.state_change), hsc]
  rw [hcfg]
  have hmath : (⌈(s.reduced_height : ℚ) * ((W : ℚ) / (s.reduced_width : ℚ))⌉ : ℤ) =
      ⌈((s.reduced_height * W : Int) : ℚ) / ((s.reduced_width : Int) : ℚ)⌉ := by
    rw [← mul_div_assoc]
    push_cast
    ring_nf
  simp only [toplevelApplySize, hsc2, hka2, hkw2, htw2, hth2, hrw2, hrh2,
    Bool.false_and, Bool.and_false, Bool.not_false, Bool.and_self, Bool.true_and,
    Bool.and_true, if_true]
  rw [if_neg (by simp), if_neg (by tauto), if_neg (by simpa using hch)]
  split_ifs with hold
  · simpa [mp_rect_h] using hmath
  · simpa [toplevelResizeFinish, mp_rect_h] using hmath

/-- C10: for every pair of positive integers a and b, the recursive
greatest_common_divisor helper terminates (it is accepted as a total
function above, with the remainder strictly decreasing and the divisor
nonzero) and stores the mathematical gcd of a and b in the state's gcd
field. -/
theorem C10_gcd_correct (a b : Nat) (ha : 0 < a) (hb : 0 < b) :
    greatest_common_divisor a b = Nat.gcd a b :=
  gcd_eq_aux (min a b) a b le_rfl ha hb

theorem C10_gcd_correct_witness :
    0 < 1920 ∧ 0 < 1080 ∧ greatest_common_divisor 1920 1080 = Nat.gcd 1920 1080 :=
  ⟨by decide, by decide, C10_gcd_correct 1920 1080 (by decide) (by decide)⟩

/-- C2 counterexample: starting from a zero miss counter, two
consecutive vo_wayland_wait_frame calls that time out with no frame
callback (each armed by the draw path setting frame_wait) do NOT mark
the surface hidden: the miss counter reaches 2 but `hidden` is still
false, because `timeout_count > 1` only holds from the third
consecutive miss on. -/
theorem C2_counterexample :
    (let s0 : PacingState :=
      { frame_wait := true, hidden := false, timeout_count := 0,
        callbacks_outstanding := 1, disable_vsync := false }
     let s1 := vo_wayland_wait_frame [false] s0
     let s2 := vo_wayland_wait_frame [false] { s1 with frame_wait := true }
     s2.hidden = false ∧ s2.timeout_count = 2) := by
  decide

/-- C2 amended: a first timed-out vo_wayland_wait_frame call leaves
`hidden` unchanged (counter 1), a second consecutive miss still leaves
`hidden` unchanged (counter 2), the THIRD consecutive miss marks the
surface hidden, a fourth changes nothing further, and a call during
which the frame callback fires resets the miss counter to zero (and
the callback itself clears `hidden`). -/
theorem C2_amended (co : Nat) (dv : Bool) :
    (let s0 : PacingState :=
      { frame_wait := true, hidden := false, timeout_count := 0,
        callbacks_outstanding := co, disable_vsync := dv }
     let s1 := vo_wayland_wait_frame [false] s0
     let s2 := vo_wayland_wait_frame [false] { s1 with frame_wait := true }
     let s3 := vo_wayland_wait_frame [false] { s2 with frame_wait := true }
     let s4 := vo_wayland_wait_frame [false] { s3 with frame_wait := true }
     let sc := vo_wayland_wait_frame [true] { s2 with frame_wait := true }
     s1.hidden = false ∧ s1.timeout_count = 1 ∧
     s2.hidden = false ∧ s2.timeout_count = 2 ∧
     s3.hidden = true ∧
     s4.hidden = true ∧
     sc.timeout_count = 0 ∧ sc.hidden = false ∧ sc.frame_wait = false) := by
  simp [vo_wayland_wait_frame, waitLoopDispatch, vo_wayland_wait_frame_timeout,
    frame_callback]

/-- C4 counterexample: after an offer whose announced mime types score
10 and 30, the type scoring 30 is recorded; when a new offer then
arrives, the old offer object is destroyed but the recorded mime type
and score are NOT reset, so a type scoring 5 announced on the new
offer does not replace the previously recorded type scoring 30 —
contradicting the claim that the new offer's type is accepted outright
regardless of its score. -/
theorem C4_counterexample :
    (let s0 : DndState :=
      { dnd_offer := none, dnd_mime_type := none, dnd_mime_score := 0,
        destroyed_offers := [] }
     let s1 := data_device_handle_data_offer s0 1
     let s2 := data_offer_handle_offer s1 "text/uri-list" 10
     let s3 := data_offer_handle_offer s2 "text/plain" 30
     let s4 := data_device_handle_data_offer s3 2
     let s5 := data_offer_handle_offer s4 "text/html" 5
     s3.dnd_mime_type = some "text/plain" ∧
     s5.dnd_mime_type = some "text/plain" ∧
     ¬s5.dnd_mime_type = some "text/html" ∧
     s5.destroyed_offers = [1] ∧ s5.dnd_offer = some 2) := by
  decide

/-- C4 amended: among the mime types announced on one offer, a type is
recorded exactly when it strictly beats the best score so far (so the
highest-scoring type wins, 30 over 10); a subsequent new offer destroys
the previous offer object and becomes active, but it leaves the
recorded mime type and score untouched (they are only reset by a leave
or drop-completion event), so the new offer's type is recorded only if
it scores strictly higher than whatever is already recorded — a type
scoring 5 does not replace one scoring 30. -/
theorem C4_amended (s : DndState) (id : Nat) (mime : String) (score : Int) :
    ((data_device_handle_data_offer s id).dnd_mime_type = s.dnd_mime_type ∧
      (data_device_handle_data_offer s id).dnd_mime_score = s.dnd_mime_score ∧
      (data_device_handle_data_offer s id).dnd_offer = some id ∧
      (data_device_handle_data_offer s id).destroyed_offers =
        s.dnd_offer.elim s.destroyed_offers (fun old => old :: s.destroyed_offers)) ∧
    data_offer_handle_offer s mime score =
      (if score > s.dnd_mime_score then
        { s with dnd_mime_score := score, dnd_mime_type := some mime }
      else s) ∧
    (let s0 : DndState :=
      { dnd_offer := none, dnd_mime_type := none, dnd_mime_score := 0,
        destroyed_offers := [] }
     let s3 := data_offer_handle_offer
       (data_offer_handle_offer (data_device_handle_data_offer s0 1) "text/uri-list" 10)
       "text/plain" 30
     let s5 := data_offer_handle_offer (data_device_handle_data_offer s3 2) "text/html" 5
     s3.dnd_mime_type = some "text/plain" ∧ s5.dnd_mime_type = some "text/plain") := by
  refine ⟨?_, rfl, by decide⟩
  cases h : s.dnd_offer <;>
    simp [data_device_handle_data_offer, h]

/-- C3 counterexample: the raw hardware-frame-descriptor importer
(drmprime_dmabuf_importer) issues its plane-add requests and reports
success for a (format, modifier) pair that is absent from both
negotiated format tables — the import is not rejected before protocol
requests are issued on that importer strategy. -/
theorem C3_counterexample :
    (let t : FormatTable := { format_map := [(1, 2)], drm_formats := [3] }
     let desc : DrmDesc :=
      { layers := [{ format := 5, planes := [{ object_index := 0, offset := 0, pitch := 64 }] }],
        objects := [{ fd := 11, format_modifier := 7 }] }
     vo_wayland_supported_format t 5 7 = false ∧
     (drmprime_dmabuf_importer desc).1 = true ∧
     ¬(drmprime_dmabuf_importer desc).2 = []) := by
  decide

/-- C3 amended: only the GPU-API-surface exporter strategy
(vaapi_dmabuf_importer) validates the negotiated format table: whenever
the exported (layer 0 format, object 0 modifier) pair is unsupported
and the export did not already fail with an invalid-surface status, it
rejects the import with no plane-add request issued.  The raw
hardware-frame-descriptor importer (drmprime_dmabuf_importer) performs
no such validation and always issues its plane-add requests. -/
theorem C3_amended (t : FormatTable) (status : VaStatus) (desc : VaapiDesc)
    (ddesc : DrmDesc)
    (hst : ¬status = VaStatus.invalidSurface)
    (hun : vo_wayland_supported_format t desc.layer0_drm_format
      ((desc.objects.getD 0 ⟨0, 0⟩).format_modifier) = false) :
    vaapi_dmabuf_importer t status desc = (false, []) ∧
    (drmprime_dmabuf_importer ddesc).1 = true := by
  constructor
  · simp only [List.getD, List.get?_eq_getElem?] at hun
    simp [vaapi_dmabuf_importer, hst, hun]
  · rfl

theorem C7_aspect_locked_resize_witness :
    (let s : WlState :=
      { geometry := ⟨0, 0, 800, 450⟩, window_size := ⟨0, 0, 800, 450⟩,
        toplevel_width := 800, toplevel_height := 450, state_change := false,
        fullscreen := false, window_maximized := false, window_minimized := false,
        keepaspect := true, keepaspect_window := true, activated := true,
        focused := true, has_keyboard_input := true, hidden := false,
        reduced_width := 16, reduced_height := 9,
        pending := ⟨false, false, false⟩, toplevel_configured := false }
     ¬mp_rect_w s.geometry = 0 ∧ ¬mp_rect_h s.geometry = 0 ∧
     ¬(640 : Int) = 0 ∧ ¬(360 : Int) = 0 ∧
     (scanToplevelStates []).1 = false ∧ (scanToplevelStates []).2.1 = false ∧
     ¬(s.toplevel_width = 640 ∧ s.toplevel_height = 360) ∧
     0 < 1920 ∧ 0 < 1080 ∧
     s.reduced_width = ((set_geometry_reduced 1920 1080).1 : Int) ∧
     s.reduced_height = ((set_geometry_reduced 1920 1080).2 : Int) ∧
     (s.reduced_width = ((1920 / Nat.gcd 1920 1080 : Nat) : Int) ∧
       s.reduced_height = ((1080 / Nat.gcd 1920 1080 : Nat) : Int) ∧
       mp_rect_h (handle_toplevel_config s 640 360 []).geometry =
         ⌈((s.reduced_height * 640 : Int) : ℚ) / ((s.reduced_width : Int) : ℚ)⌉)) :=
  ⟨by decide, by decide, by decide, by decide, by decide, by decide, by decide,
    by decide, by decide,
    by simp [set_geometry_reduced, greatest_common_divisor],
    by simp [set_geometry_reduced, greatest_common_divisor],
    C7_aspect_locked_resize _ 640 360 [] 1920 1080
      (by decide) (by decide) (by decide) (by decide) (by decide) (by decide)
      (by decide) (by decide) (by decide) (by decide) (by decide) (by decide)
      (by decide) (by decide)
      (by simp [set_geometry_reduced, greatest_common_divisor])
      (by simp [set_geometry_reduced, greatest_common_divisor])⟩

/-- C5: the vblank interval used for the frame-wait deadline is chosen
in strict priority order — measured vsync duration (only when
presentation is in use), compositor-reported refresh interval, the
current output's nominal refresh rate, then the hardcoded 60 Hz
fallback — taking the first of these whose value is positive; the
chosen interval is then padded by 5% (floor of a 1/20 increment), and
the dispatch loop keeps polling until the frame callback fires or the
deadline elapses (frame_wait stays set afterwards exactly when no
dispatch round before the deadline fired the callback). -/
theorem C5_deadline_priority (i : FrameWaitInput) (l : List Bool) (s : PacingState) :
    computeVblankBase i =
      (if i.use_present ∧ 0 < i.vsync_duration then i.vsync_duration
       else if 0 < i.refresh_interval then i.refresh_interval
       else if 0 < i.refresh_rate ∧ 0 < ⌊(1000000 : ℚ) / i.refresh_rate⌋ then
         ⌊(1000000 : ℚ) / i.refresh_rate⌋
       else 1000000 / 60) ∧
    0 < computeVblankBase i ∧
    computeVblankPadded i = computeVblankBase i + computeVblankBase i / 20 ∧
    (waitLoopDispatch l s).frame_wait = (s.frame_wait && !l.any id) := by
  have hchar : computeVblankBase i =
      (if i.use_present ∧ 0 < i.vsync_duration then i.vsync_duration
       else if 0 < i.refresh_interval then i.refresh_interval
       else if 0 < i.refresh_rate ∧ 0 < ⌊(1000000 : ℚ) / i.refresh_rate⌋ then
         ⌊(1000000 : ℚ) / i.refresh_rate⌋
       else 1000000 / 60) := by
    unfold computeVblankBase
    rcases hup : i.use_present <;> by_cases hr : 0 < i.refresh_rate <;>
      simp only [hup, hr, gt_iff_lt, and_true, and_false, if_false, if_true, false_and,
        true_and, Bool.false_eq_true, iff_false] <;>
      split_ifs <;> omega
  have hpos : 0 < computeVblankBase i := by
    rw [hchar]
    split_ifs <;> omega
  refine ⟨hchar, hpos, ?_, ?_⟩
  · unfold computeVblankPadded
    have hq : (computeVblankBase i : ℚ) + 5 / 100 * (computeVblankBase i : ℚ) =
        ((21 * computeVblankBase i : ℤ) : ℚ) / ((20 : ℕ) : ℚ) := by
      push_cast
      ring
    show (⌊(computeVblankBase i : ℚ) + 5 / 100 * (computeVblankBase i : ℚ)⌋ : ℤ) = _
    rw [hq, Rat.floor_intCast_div_natCast]
    omega
  · induction l generalizing s with
    | nil => simp [waitLoopDispatch]
    | cons fired rest ih =>
      rcases hw : s.frame_wait
      · simp [waitLoopDispatch, hw]
      · cases fired
        · simpa [waitLoopDispatch, hw] using ih s
        · simp [waitLoopDispatch, hw, frame_callback, ih]

theorem waitLoopDispatch_outstanding (l : List Bool) :
    ∀ s : PacingState, s.callbacks_outstanding = 1 →
      (waitLoopDispatch l s).callbacks_outstanding = 1 := by
  induction l with
  | nil => intro s h; exact h
  | cons fired rest ih =>
    intro s h
    simp only [waitLoopDispatch]
    split
    · cases fired
      · simpa using ih _ h
      · exact ih _ (by simp [frame_callback, h])
    · exact h

theorem wait_frame_timeout_outstanding (s : PacingState) :
    (vo_wayland_wait_frame_timeout s).callbacks_outstanding = s.callbacks_outstanding := by
  unfold vo_wayland_wait_frame_timeout
  split_ifs <;> rfl

/-- C6: in every state reachable from the post-init state by event-loop
steps, at most one frame callback is outstanding: the only requests are
the one made once by vo_wayland_init and the one made by frame_callback
right after destroying the callback that just fired, so no step of the
loop or of the frame-wait routine can create a second outstanding
callback. -/
theorem C6_at_most_one_outstanding_callback (dv : Bool) (events : List LoopEvent) :
    (runLoop dv events).callbacks_outstanding ≤ 1 := by
  have key : ∀ (evs : List LoopEvent) (s : PacingState), s.callbacks_outstanding = 1 →
      (evs.foldl loopStep s).callbacks_outstanding = 1 := by
    intro evs
    induction evs with
    | nil => intro s h; exact h
    | cons e rest ih =>
      intro s h
      refine ih _ ?_
      cases e with
      | frameFired => simp [loopStep, frame_callback, h]
      | waitFrame dispatches =>
        simp only [loopStep, vo_wayland_wait_frame, wait_frame_timeout_outstanding]
        exact waitLoopDispatch_outstanding _ _ h
      | checkVisible => simp [loopStep, vo_wayland_check_visible, h]
      | resizeAck => simp [loopStep, h]
      | exposeActivate => simp [loopStep, h]
  exact le_of_eq (key events _ rfl)

/-- C9: vo_wayland_check_visible always arms the frame wait and changes
no other state; it returns true exactly when the surface is not hidden
or vsync is disabled; consequently draw_frame on a hidden surface with
vsync enabled performs no pool or surface operation at all while the
frame wait is still armed. -/
theorem C9_check_visible_arms_wait (s : PacingState) (d : DrawState) (pe : Option Nat)
    (hh : d.pacing.hidden = true) (hv : d.pacing.disable_vsync = false) :
    (vo_wayland_check_visible s).2 = { s with frame_wait := true } ∧
    (vo_wayland_check_visible s).1 = (!s.hidden || s.disable_vsync) ∧
    draw_frame pe d = ({ d with pacing := { d.pacing with frame_wait := true } }, []) := by
  refine ⟨rfl, rfl, ?_⟩
  simp [draw_frame, vo_wayland_check_visible, hh, hv]

theorem C9_check_visible_arms_wait_witness :
    (let s : PacingState :=
      { frame_wait := false, hidden := true, timeout_count := 0,
        callbacks_outstanding := 1, disable_vsync := false }
     let d : DrawState := { pacing := s, want_reset := false, reset_count := 0 }
     s.hidden = true ∧ s.disable_vsync = false ∧
     ((vo_wayland_check_visible s).2 = { s with frame_wait := true } ∧
       (vo_wayland_check_visible s).1 = (!s.hidden || s.disable_vsync) ∧
       draw_frame none d = ({ d with pacing := { d.pacing with frame_wait := true } }, []))) :=
  ⟨rfl, rfl, C9_check_visible_arms_wait _ _ none rfl rfl⟩

/-- C8: when the window is fullscreen or maximized, check_for_resize
reports no edge; otherwise it reports an edge exactly when the position
is within the margin of at least one border, and when both a vertical
border (left or right) and a horizontal border (top or bottom) are
crossed it chooses the corresponding corner edge rather than a
single-edge value. -/
theorem C8_edge_detection (fs mx : Bool) (pos0 pos1 : Int) (geometry : Rect) (E : Int) :
    ((fs || mx) = true → check_for_resize fs mx pos0 pos1 geometry E = none) ∧
    ((fs || mx) = false →
      ((check_for_resize fs mx pos0 pos1 geometry E).isSome ↔
        (pos0 < E ∨ pos0 > mp_rect_w geometry - E ∨
          pos1 < E ∨ pos1 > mp_rect_h geometry - E))) ∧
    ((fs || mx) = false → (pos0 < E ∨ pos0 > mp_rect_w geometry - E) →
      (pos1 < E ∨ pos1 > mp_rect_h geometry - E) →
      check_for_resize fs mx pos0 pos1 geometry E = some ResizeEdge.topLeft ∨
      check_for_resize fs mx pos0 pos1 geometry E = some ResizeEdge.topRight ∨
      check_for_resize fs mx pos0 pos1 geometry E = some ResizeEdge.bottomLeft ∨
      check_for_resize fs mx pos0 pos1 geometry E = some ResizeEdge.bottomRight) ∧
    ((fs || mx) = false → pos0 < E → pos1 < E →
      check_for_resize fs mx pos0 pos1 geometry E = some ResizeEdge.topLeft) ∧
    ((fs || mx) = false → pos0 < E → ¬pos1 < E → pos1 > mp_rect_h geometry - E →
      check_for_resize fs mx pos0 pos1 geometry E = some ResizeEdge.bottomLeft) ∧
    ((fs || mx) = false → ¬pos0 < E → pos0 > mp_rect_w geometry - E → pos1 < E →
      check_for_resize fs mx pos0 pos1 geometry E = some ResizeEdge.topRight) ∧
    ((fs || mx) = false → ¬pos0 < E → pos0 > mp_rect_w geometry - E → ¬pos1 < E →
      pos1 > mp_rect_h geometry - E →
      check_for_resize fs mx pos0 pos1 geometry E = some ResizeEdge.bottomRight) := by
  by_cases hf : (fs || mx) = true
  · refine ⟨fun _ => by simp [check_for_resize, hf], ?_, ?_, ?_, ?_, ?_, ?_⟩ <;>
      (intro h; rw [h] at hf; exact absurd hf (by simp))
  · have hf' : (fs || mx) = false := by
      cases fs <;> cases mx <;> simp_all
    by_cases h1 : pos0 < E <;> by_cases h2 : pos1 < E <;>
      by_cases h3 : pos0 > mp_rect_w geometry - E <;>
      by_cases h4 : pos1 > mp_rect_h geometry - E <;>
      refine ⟨fun h => absurd h (by simp [hf']), ?_, ?_, ?_, ?_, ?_, ?_⟩ <;>
      simp [check_for_resize, hf', h1, h2, h3, h4]

theorem C8_edge_detection_witness :
    ((false || false) = false ∧ (3 : Int) < 10 ∧ (4 : Int) < 10 ∧
      check_for_resize false false 3 4 ⟨0, 0, 800, 600⟩ 10 = some ResizeEdge.topLeft) := by
  refine ⟨rfl, by decide, by decide, ?_⟩
  exact (C8_edge_detection false false 3 4 ⟨0, 0, 800, 600⟩ 10).2.2.2.1 rfl (by decide)
    (by decide)

theorem C3_amended_witness :
    (let t : FormatTable := { format_map := [(1, 2)], drm_formats := [3] }
     let desc : VaapiDesc :=
      { layer0_drm_format := 5,
        layer0_planes := [{ object_index := 0, offset := 0, pitch := 64 }],
        objects := [{ fd := 11, format_modifier := 7 }] }
     let ddesc : DrmDesc := { layers := [], objects := [] }
     ¬VaStatus.success = VaStatus.invalidSurface ∧
     vo_wayland_supported_format t 5 7 = false ∧
     (vaapi_dmabuf_importer t VaStatus.success desc = (false, []) ∧
       (drmprime_dmabuf_importer ddesc).1 = true)) :=
  ⟨by decide, by decide,
    C3_amended _ VaStatus.success _ _ (by decide) (by decide)⟩
